import Mathlib

/-!
# Verification of `advancedlogging` core behaviors

A shallow embedding of the core of the `advancedlogging` package
(`advancedloggers.py`, `handlers.py`) in Lean 4, with theorems settling the
behavioral claims about the Level Gate, the Trace Logger, the Serializable
Handler, the Queue Listener and the Warnings Bridge.

Conventions of the embedding:
* Python dictionaries with insertion order are association lists
  (`List (κ × ν)`); assigning to an existing key updates in place, assigning
  a new key appends.
* A raised Python exception is an `Except` error value; the error string
  records which exception was raised.
* Function objects (warning handlers, streams, locks) are identified by
  abstract tokens (`Nat` identities) since only identity and presence matter
  to the claims.
* Timer readings are integers (`Int`) so that differences are closed.
-/

namespace AdvancedLogging

/-! ## Level Gate and Trace Logger (`advancedloggers.py`) -/

/-- Numeric levels of the standard `logging` module used by
`AdvancedLogger.default_levels`. -/
def DEBUG : Nat := 10
def INFO : Nat := 20
def WARNING : Nat := 30
def ERROR : Nat := 40
def CRITICAL : Nat := 50

/-- Embeds `AdvancedLogger.default_levels`: the default mapping of symbolic level
names to numeric severities, in declaration order. -/
def default_levels : List (String × Nat) :=
  [("DEBUG", DEBUG), ("INFO", INFO), ("WARNING", WARNING),
   ("ERROR", ERROR), ("CRITICAL", CRITICAL)]

/-- Dictionary lookup `d[k]` on an association list: the value at the first
matching key, `none` when absent (a Python `KeyError`). -/
def dictGet {ν : Type} (d : List (String × ν)) (k : String) : Option ν :=
  match d with
  | [] => none
  | (k', v) :: rest => if k' = k then some v else dictGet rest k

/-- A level argument as accepted by the Python methods: either a symbolic
name (`str`) or an already numeric severity (`int`). -/
inductive LevelArg where
  | sym (s : String)
  | num (n : Nat)
deriving DecidableEq, Repr

/-- The state of an `AdvancedLogger` relevant to level gating and message
formation.  `loggerLevel` and `disabled` are the wrapped `logging.Logger`'s
`level` and `disabled` attributes; the remaining fields are the wrapper's
own attributes set in `AdvancedLogger.__init__`. -/
structure AdvancedLogger where
  loggerLevel : Nat
  disabled : Bool
  quick_check : Bool
  levels : List (String × Nat)
  allow_append : Bool
  append_message : String
deriving Repr

/-- A fresh `AdvancedLogger` as produced by `__init__` wrapping a logger
with the given threshold: `quick_check = False`, `levels` a copy of
`default_levels`, `allow_append = False`, `append_message = ""`. -/
def mkLogger (threshold : Nat) : AdvancedLogger :=
  ⟨threshold, false, false, default_levels, false, ""⟩

/-- A record as delivered by the wrapped logger: the numeric level and the
final message string. -/
structure LogRecord where
  level : Nat
  msg : String
deriving DecidableEq, Repr

/-- Embeds `AdvancedLogger.isEnabledFor`: `False` when the wrapped logger is
disabled; otherwise resolves a symbolic level through `self.levels`
(raising `KeyError` when absent) and compares `≥` against the wrapped
logger's level. -/
def isEnabledFor (lg : AdvancedLogger) (level : LevelArg) : Except String Bool :=
  if lg.disabled then .ok false
  else
    match level with
    | .sym s =>
      match dictGet lg.levels s with
      | some v => .ok (decide (v ≥ lg.loggerLevel))
      | none => .error ("KeyError: " ++ s)
    | .num n => .ok (decide (n ≥ lg.loggerLevel))

/-- The emission performed by the wrapped `logging.Logger` when handed a
numeric level and a message: it emits exactly one record when it is not
disabled and the level passes its own threshold, else none. -/
def underlyingEmit (lg : AdvancedLogger) (level : Nat) (msg : String) : List LogRecord :=
  if !lg.disabled && decide (level ≥ lg.loggerLevel) then [⟨level, msg⟩] else []

/-- The append-message guard shared by all logging methods:
`append or (append is None and self.allow_append)` with `append` an
optional boolean. -/
def appendWanted (lg : AdvancedLogger) (append : Option Bool) : Bool :=
  append.getD lg.allow_append

/-- Embeds `AdvancedLogger.log`: resolves a symbolic level (`KeyError` when
absent), applies the quick-check gate, optionally prefixes the append
message, and delegates to the wrapped logger's `log`.  Returns the records
the call causes to be emitted. -/
def AdvancedLogger.log (lg : AdvancedLogger) (level : LevelArg) (msg : String)
    (append : Option Bool) : Except String (List LogRecord) := do
  let lvl ← match level with
    | .sym s =>
      match dictGet lg.levels s with
      | some v => Except.ok v
      | none => Except.error ("KeyError: " ++ s)
    | .num n => Except.ok n
  let proceed ← if lg.quick_check then isEnabledFor lg (.num lvl) else pure true
  if proceed then
    let msg := if appendWanted lg append then lg.append_message ++ msg else msg
    return underlyingEmit lg lvl msg
  else
    return []

/-- Embeds `AdvancedLogger.trace_log`: defaults the level to the wrapped logger's
own level, resolves a symbolic level, applies the quick-check gate,
synthesizes the trace message `"{class_}({name}) -> {func}: {msg}"` and
delegates to `log`. -/
def AdvancedLogger.trace_log (lg : AdvancedLogger) (class_ func msg : String)
    (name : String) (level : Option LevelArg) (append : Option Bool) :
    Except String (List LogRecord) := do
  let lvl ← match level with
    | none => Except.ok lg.loggerLevel
    | some (.sym s) =>
      match dictGet lg.levels s with
      | some v => Except.ok v
      | none => Except.error ("KeyError: " ++ s)
    | some (.num n) => Except.ok n
  let proceed ← if lg.quick_check then isEnabledFor lg (.num lvl) else pure true
  if proceed then
    let trace_msg := class_ ++ "(" ++ name ++ ") -> " ++ func ++ ": " ++ msg
    lg.log (.num lvl) trace_msg append
  else
    return []

/-- Embeds `AdvancedLogger.exception`: the guard
`not self.quick_check or self.isEnabledFor(self.levels["EXCEPTION"])`
short-circuits, so the lookup `self.levels["EXCEPTION"]` is evaluated only
when `quick_check` is on.  On delegation the wrapped logger's `exception`
emits at `ERROR` severity. -/
def AdvancedLogger.exception (lg : AdvancedLogger) (msg : String)
    (append : Option Bool) : Except String (List LogRecord) := do
  let proceed ←
    if lg.quick_check then
      match dictGet lg.levels "EXCEPTION" with
      | some v => isEnabledFor lg (.num v)
      | none => Except.error "KeyError: EXCEPTION"
    else
      pure true
  if proceed then
    let msg := if appendWanted lg append then lg.append_message ++ msg else msg
    return underlyingEmit lg ERROR msg
  else
    return []

/-! ## Performance Timer (`PerformanceLogger`) -/

/-- A key of the inner timing-pair dictionary: `pair_begin` auto-names
unnamed pairs with the integer `len(self.pairs[type_])`; callers may also
supply string names. -/
inductive PKey where
  | auto (n : Nat)
  | named (s : String)
deriving DecidableEq, Repr

/-- One timing pair: `{"beginning": ..., "ending": ...}` with `ending`
initially `None`. -/
structure PairEntry where
  beginning : Int
  ending : Option Int
deriving DecidableEq, Repr

/-- The inner dictionary `self.pairs[type_]`, insertion ordered. -/
abbrev PairDict := List (PKey × PairEntry)

/-- Dictionary assignment `d[k] = v` on an insertion-ordered association
list: updates the first matching key in place, appends when absent. -/
def pairSet (d : PairDict) (k : PKey) (v : PairEntry) : PairDict :=
  match d with
  | [] => [(k, v)]
  | (k', v') :: rest =>
    if k' = k then (k, v) :: rest else (k', v') :: pairSet rest k v

/-- Lookup `d[k]` in the inner pair dictionary. -/
def pairGet (d : PairDict) (k : PKey) : Option PairEntry :=
  match d with
  | [] => none
  | (k', v) :: rest => if k' = k then some v else pairGet rest k

/-- The outer dictionary `self.pairs`, mapping a timing type to its inner
pair dictionary. -/
abbrev Pairs := List (String × PairDict)

/-- Outer-dictionary assignment `pairs[type_] = inner`. -/
def pairsSet (p : Pairs) (type_ : String) (inner : PairDict) : Pairs :=
  match p with
  | [] => [(type_, inner)]
  | (k, v) :: rest =>
    if k = type_ then (type_, inner) :: rest else (k, v) :: pairsSet rest type_ inner

/-- Embeds `PerformanceLogger.pair_begin`: creates the type's inner dictionary when
missing, auto-names an unnamed pair with the inner dictionary's current
length, and records `{"beginning": t, "ending": None}` under that name. -/
def pair_begin (p : Pairs) (type_ : String) (name : Option PKey) (t : Int) : Pairs :=
  let inner := (dictGet p type_).getD []
  let nm := name.getD (.auto inner.length)
  pairsSet p type_ (pairSet inner nm ⟨t, none⟩)

/-- Embeds `PerformanceLogger.pair_end`: when `name` is omitted, uses
`list(self.pairs[type_].keys())[0]` — the first key in insertion order —
and sets that pair's `"ending"` to the timer reading.  A missing type is a
`KeyError`, an empty inner dictionary an `IndexError`, a missing explicit
name a `KeyError`. -/
def pair_end (p : Pairs) (type_ : String) (name : Option PKey) (t : Int) :
    Except String Pairs := do
  let inner ← match dictGet p type_ with
    | some d => Except.ok d
    | none => Except.error ("KeyError: " ++ type_)
  let nm ← match name with
    | some k => Except.ok k
    | none =>
      match inner.head? with
      | some (k, _) => Except.ok k
      | none => Except.error "IndexError: list index out of range"
  let entry ← match pairGet inner nm with
    | some e => Except.ok e
    | none => Except.error "KeyError: pair name"
  return pairsSet p type_ (pairSet inner nm { entry with ending := some t })

/-- Embeds `PerformanceLogger.pair_difference`: when `name` is omitted, reads the
first key in insertion order and returns `ending - beginning` of that pair.
An unfinished pair has `ending = None`, which in Python is a `TypeError`
when subtracted. -/
def pair_difference (p : Pairs) (type_ : String) (name : Option PKey) :
    Except String Int := do
  let inner ← match dictGet p type_ with
    | some d => Except.ok d
    | none => Except.error ("KeyError: " ++ type_)
  let nm ← match name with
    | some k => Except.ok k
    | none =>
      match inner.head? with
      | some (k, _) => Except.ok k
      | none => Except.error "IndexError: list index out of range"
  let entry ← match pairGet inner nm with
    | some e => Except.ok e
    | none => Except.error "KeyError: pair name"
  match entry.ending with
  | some e => return e - entry.beginning
  | none => Except.error "TypeError: unsupported operand"

/-! ## Queue Listener (`handlers.py`, `LogListener`) -/

/-- The `LogListener` state relevant to the claims: the two multiprocessing
event flags (`alive_event`, `terminate_event`), the stored execution mode
`_is_async`, whether `_thread` is set, and the attached handlers
(identified abstractly). -/
structure LogListener where
  aliveEvent : Bool
  terminateEvent : Bool
  isAsyncFlag : Bool
  hasThread : Bool
  handlers : List Nat
deriving DecidableEq, Repr

/-- Embeds `LogListener.is_alive`: whether `alive_event` is set. -/
def LogListener.is_alive (l : LogListener) : Bool := l.aliveEvent

/-- The `is_async` property getter: while alive the mode is detected from
`_thread`; otherwise the stored `_is_async` flag is reported. -/
def LogListener.is_async (l : LogListener) : Bool :=
  if l.is_alive then (if l.hasThread then false else true) else l.isAsyncFlag

/-- The `is_async` property setter: it assigns `self._is_async = value`
first and only then raises `ValueError` when the listener is alive.
Returns the post-call state together with the raised error, if any. -/
def LogListener.set_is_async (l : LogListener) (value : Bool) :
    LogListener × Option String :=
  let l' := { l with isAsyncFlag := value }
  if l'.is_alive then
    (l', some "cannot set is_async while LogListener is running.")
  else
    (l', none)

/-- Embeds `LogListener.start`: raises `RuntimeError` while alive, before any
mutation; otherwise sets `alive_event` (the monitor loop it then enters is
modelled separately by `monitor`). -/
def LogListener.start (l : LogListener) : LogListener × Option String :=
  if l.is_alive then
    (l, some "LogListener is already running.")
  else
    ({ l with aliveEvent := true }, none)

/-- Embeds `LogListener.start_async_task`: raises `RuntimeError` while alive,
before any mutation; otherwise forces `_is_async = True`, sets
`alive_event` and schedules the async monitor. -/
def LogListener.start_async_task (l : LogListener) : LogListener × Option String :=
  if l.is_alive then
    (l, some "LogListener is already running.")
  else
    ({ l with isAsyncFlag := true, aliveEvent := true }, none)

/-- An item in the shared queue: a log record or the distinguished sentinel
(`QueueListener._sentinel`, i.e. `None`); the identity test
`record is self._sentinel` distinguishes the two constructors. -/
inductive QItem (α : Type) where
  | record (r : α)
  | sentinel
deriving DecidableEq, Repr

/-- The outcome of one run of the consumption loop. -/
structure MonitorResult (α : Type) where
  /-- The records passed to `self.handle`, in dispatch order. -/
  handled : List α
  /-- Whether the sentinel's queue slot was acknowledged with `task_done`. -/
  sentinelAcked : Bool
  /-- Whether the loop exited (rather than blocking on an empty queue). -/
  finished : Bool
deriving DecidableEq, Repr

/-- The common body of `LogListener._monitor` and
`LogListener._monitor_async`, run over the queue's contents in order: a
sentinel is acknowledged with `task_done` (when the queue supports it) and
breaks the loop without being handled; a record is handled then
acknowledged.  An exhausted queue means the blocking dequeue never returns
(`finished = false`). -/
def monitorLoop {α : Type} (hasTaskDone : Bool) : List (QItem α) → MonitorResult α
  | [] => ⟨[], false, false⟩
  | .sentinel :: _ => ⟨[], hasTaskDone, true⟩
  | .record r :: rest =>
    let res := monitorLoop hasTaskDone rest
    ⟨r :: res.handled, res.sentinelAcked, res.finished⟩

/-- Embeds `LogListener._monitor` / `_monitor_async` as a whole: the loop guard
re-checks `terminate_event` before each dequeue (here constant, as no
concurrent actor flips it during the modelled run), and on exit
`alive_event` is cleared. -/
def monitor {α : Type} (l : LogListener) (hasTaskDone : Bool)
    (queue : List (QItem α)) : MonitorResult α × LogListener :=
  if l.terminateEvent then
    (⟨[], false, true⟩, { l with aliveEvent := false })
  else
    (monitorLoop hasTaskDone queue, { l with aliveEvent := false })

/-- Embeds `LogListener.dequeue_async`, discretized: iteration `k` observes the
queue's emptiness `emptyAt k`; while empty it sleeps for `interval` and
then compares the elapsed time (`elapsed (k+1)`, the `perf_counter` delta
after `k+1` sleeps) against the timeout, warning a `TimeoutWarning` and
returning `None` ("no record") when it has expired.  A non-empty
observation returns `queue.get()` immediately.  The result pairs the
returned value with the number of warnings emitted; `fuel` bounds the
iterations modelled, `none` meaning the call is still waiting. -/
def dequeue_async {α : Type} (emptyAt : Nat → Bool) (item : α)
    (timeout : Option Nat) (elapsed : Nat → Nat) :
    Nat → Nat → Option (Option α × Nat)
  | 0, _ => none
  | fuel + 1, k =>
    if emptyAt k then
      match timeout with
      | some t =>
        if elapsed (k + 1) ≥ t then some (none, 1)
        else dequeue_async emptyAt item timeout elapsed fuel (k + 1)
      | none => dequeue_async emptyAt item timeout elapsed fuel (k + 1)
    else
      some (some item, 0)

/-! ## Serializable Handler (`PickableHandler`, `FileHandler`) -/

/-- A value of a handler's `__dict__` entry: only the shapes the claims
need are distinguished — numbers and strings for ordinary configuration
(`level`, `baseFilename`, `mode`), abstract tokens for a live lock or an
open stream, `True` for the stream flag, and `None`. -/
inductive FieldVal where
  | nat (n : Nat)
  | str (s : String)
  | boolTrue
  | noneV
  | lockV (id : Nat)
  | streamV (id : Nat)
deriving DecidableEq, Repr

/-- Python truthiness of a `__dict__` value as used by `if self.stream:`
and `if in_dict["stream"]:`. -/
def FieldVal.truthy : FieldVal → Bool
  | .nat n => n ≠ 0
  | .str s => s ≠ ""
  | .boolTrue => true
  | .noneV => false
  | .lockV _ => true
  | .streamV _ => true

/-- A handler's `__dict__`: an insertion-ordered mapping from attribute
name to value. -/
abbrev ObjDict := List (String × FieldVal)

/-- Lookup in a `__dict__`. -/
def objGet (d : ObjDict) (k : String) : Option FieldVal :=
  match d with
  | [] => none
  | (k', v) :: rest => if k' = k then some v else objGet rest k

/-- Assignment `d[k] = v` in a `__dict__`. -/
def objSet (d : ObjDict) (k : String) (v : FieldVal) : ObjDict :=
  match d with
  | [] => [(k, v)]
  | (k', v') :: rest =>
    if k' = k then (k, v) :: rest else (k', v') :: objSet rest k v

/-- Embeds `d.pop(k)`: removes the first entry with key `k`. -/
def objPop (d : ObjDict) (k : String) : ObjDict :=
  match d with
  | [] => []
  | (k', v) :: rest => if k' = k then rest else (k', v) :: objPop rest k

/-- Embeds `Handler.createLock`: installs a fresh mutual-exclusion lock under the
`lock` attribute. -/
def createLock (d : ObjDict) (freshLock : Nat) : ObjDict :=
  objSet d "lock" (.lockV freshLock)

/-- Embeds `PickableHandler.__getstate__`: a copy of `__dict__` with the `lock`
entry popped. -/
def PickableHandler.getstate (d : ObjDict) : ObjDict :=
  objPop d "lock"

/-- Embeds `PickableHandler.__setstate__`: adopts the snapshot as `__dict__` and
recreates the lock via `createLock`. -/
def PickableHandler.setstate (in_dict : ObjDict) (freshLock : Nat) : ObjDict :=
  createLock in_dict freshLock

/-- Embeds `FileHandler.__getstate__`: the base snapshot without the lock; when a
stream is open, the live handler's stream is closed and the snapshot's
`stream` entry is overwritten with `True`.  Returns the snapshot and the
(possibly mutated) live handler. -/
def FileHandler.getstate (d : ObjDict) : ObjDict × ObjDict :=
  let out := PickableHandler.getstate d
  if ((objGet d "stream").getD .noneV).truthy then
    (objSet out "stream" .boolTrue, objSet d "stream" .noneV)
  else
    (out, d)

/-- Embeds `FileHandler._open`: reopens the stream from the handler's stored
target (`baseFilename`/`mode`), yielding a fresh stream token. -/
def FileHandler.reopen (freshStream : Nat) : FieldVal :=
  .streamV freshStream

/-- Embeds `FileHandler.__setstate__`: the base restore (adopt dictionary, fresh
lock) and, when the snapshot's `stream` flag is truthy, reopening the
stream via `_open`. -/
def FileHandler.setstate (in_dict : ObjDict) (freshLock freshStream : Nat) : ObjDict :=
  let d := PickableHandler.setstate in_dict freshLock
  if ((objGet in_dict "stream").getD .noneV).truthy then
    objSet d "stream" (FileHandler.reopen freshStream)
  else
    d

/-! ## Warnings Bridge (`WarningsLogger`) -/

/-- The process-wide warnings-capture state: the class attribute
`_warnings_showwarning` (the saved prior emission function), the
`capturing` flag, and the global `warnings.showwarning` function; function
objects are abstract tokens. -/
structure WarnState where
  saved : Option Nat
  capturing : Bool
  showwarning : Nat
deriving DecidableEq, Repr

/-- Embeds `WarningsLogger.capture_warnings`: enabling saves the prior
`warnings.showwarning` only when none is saved yet (installing the
replacement when `init` is on, and setting `capturing`); when one is
already saved the entire enable branch is skipped.  Disabling restores the
saved function into `warnings.showwarning` and clears `capturing`, but
leaves `_warnings_showwarning` itself set. -/
def capture_warnings (s : WarnState) (capture : Bool) (init : Bool)
    (replacement : Nat) : WarnState :=
  if capture then
    match s.saved with
    | none =>
      let s1 : WarnState := { s with saved := some s.showwarning }
      let s2 : WarnState :=
        if init then { s1 with showwarning := replacement } else s1
      { s2 with capturing := true }
    | some _ => s
  else
    match s.saved with
    | some f => { s with showwarning := f, capturing := false }
    | none => s

/-! ## Theorems -/

/-- C4: for a symbolic level `L` mapped to numeric value `v`,
`is_enabled(L)` returns true iff the logger is not disabled and `v` is at
least the logger's threshold; on a non-disabled logger it is true when the
threshold equals `v` and false when the threshold equals `v + 1`. -/
theorem isEnabledFor_symbolic_spec (lg : AdvancedLogger) (L : String) (v : Nat)
    (hv : dictGet lg.levels L = some v) :
    isEnabledFor lg (.sym L) = .ok (!lg.disabled && decide (v ≥ lg.loggerLevel)) ∧
    (lg.disabled = false → lg.loggerLevel = v →
      isEnabledFor lg (.sym L) = .ok true) ∧
    (lg.disabled = false → lg.loggerLevel = v + 1 →
      isEnabledFor lg (.sym L) = .ok false) := by
  refine ⟨?_, ?_, ?_⟩
  · unfold isEnabledFor
    cases hd : lg.disabled with
    | true => simp [hd]
    | false => simp [hd, hv]
  · intro hd he
    unfold isEnabledFor
    simp [hd, hv, he]
  · intro hd he
    unfold isEnabledFor
    simp [hd, hv, he]

/-- Witness for C4 at a concrete logger: a fresh logger thresholded at
`WARNING` with the default level mapping. -/
theorem isEnabledFor_symbolic_spec_witness :
    isEnabledFor (mkLogger WARNING) (.sym "WARNING") = .ok true ∧
    isEnabledFor (mkLogger (WARNING + 1)) (.sym "WARNING") = .ok false :=
  ⟨(isEnabledFor_symbolic_spec (mkLogger WARNING) "WARNING" WARNING rfl).2.1 rfl rfl,
   (isEnabledFor_symbolic_spec (mkLogger (WARNING + 1)) "WARNING" WARNING rfl).2.2 rfl rfl⟩

/-- C3: on a logger that is not disabled, whose level mapping resolves `L`
to `v`, whose threshold admits `v`, and with the append feature off,
`trace_log(class_, func, msg, name=name, level=L)` emits exactly one record
at level `v` whose message is exactly
`"{class_}({name}) -> {func}: {msg}"` — under either quick-check setting. -/
theorem trace_log_format_spec (lg : AdvancedLogger)
    (class_ func msg name L : String) (v : Nat)
    (hd : lg.disabled = false) (hv : dictGet lg.levels L = some v)
    (ht : v ≥ lg.loggerLevel) (ha : lg.allow_append = false) :
    lg.trace_log class_ func msg name (some (.sym L)) none =
      .ok [⟨v, class_ ++ "(" ++ name ++ ") -> " ++ func ++ ": " ++ msg⟩] := by
  unfold AdvancedLogger.trace_log AdvancedLogger.log
  cases hq : lg.quick_check with
  | true =>
    simp [hv, hq, isEnabledFor, hd, ht, underlyingEmit, appendWanted, ha,
      bind, Except.bind, pure, Except.pure]
  | false =>
    simp [hv, hq, underlyingEmit, hd, ht, appendWanted, ha,
      bind, Except.bind, pure, Except.pure]

/-- Witness for C3: the §8 scenario — a fresh logger thresholded at
`DEBUG`, `trace_log` called at symbolic level `"CRITICAL"`. -/
theorem trace_log_format_spec_witness :
    (mkLogger DEBUG).trace_log "ClassTest" "divide" "ZERO DIVISION WAS ATTEMPTED"
        "thing1" (some (.sym "CRITICAL")) none =
      .ok [⟨CRITICAL, "ClassTest(thing1) -> divide: ZERO DIVISION WAS ATTEMPTED"⟩] :=
  trace_log_format_spec (mkLogger DEBUG) "ClassTest" "divide"
    "ZERO DIVISION WAS ATTEMPTED" "thing1" "CRITICAL" CRITICAL
    rfl rfl (by decide) rfl

/-- C9: on a logger that carries the default level mapping, `exception`
raises `KeyError` (and emits nothing) when `quick_check` is on, because
`"EXCEPTION"` is not a key of the mapping; when `quick_check` is off the
short-circuit of `not self.quick_check or ...` skips the lookup and the
call succeeds, delegating to the wrapped logger at `ERROR` severity. -/
theorem exception_gate_spec (lg : AdvancedLogger) (msg : String)
    (append : Option Bool) (hl : lg.levels = default_levels) :
    (lg.quick_check = true →
      lg.exception msg append = .error "KeyError: EXCEPTION") ∧
    (lg.quick_check = false →
      lg.exception msg append =
        .ok (underlyingEmit lg ERROR
          (if appendWanted lg append then lg.append_message ++ msg else msg))) := by
  have hget : dictGet lg.levels "EXCEPTION" = none := by
    rw [hl]; rfl
  constructor
  · intro hq
    unfold AdvancedLogger.exception
    simp [hq, hget, bind, Except.bind, pure, Except.pure]
  · intro hq
    unfold AdvancedLogger.exception
    simp [hq, bind, Except.bind, pure, Except.pure]

/-- Witness for C9 at concrete loggers: with `quick_check` on the call
fails with the key error; with the default `quick_check = False` it
succeeds and emits one `ERROR`-level record. -/
theorem exception_gate_spec_witness :
    ({ mkLogger DEBUG with quick_check := true } :
        AdvancedLogger).exception "boom" none = .error "KeyError: EXCEPTION" ∧
    (mkLogger DEBUG).exception "boom" none = .ok [⟨ERROR, "boom"⟩] :=
  ⟨(exception_gate_spec { mkLogger DEBUG with quick_check := true } "boom" none rfl).1 rfl,
   (exception_gate_spec (mkLogger DEBUG) "boom" none rfl).2 rfl⟩

/-- C10: beginning two unnamed pairs of one timing type and then calling
`pair_end` once with the name omitted closes the earliest pair (auto-name
`0`, the first key in insertion order) and leaves the latest pair
(auto-name `1`) open; `pair_difference` with the name omitted likewise
reads the first pair. -/
theorem pair_end_targets_first_pair (type_ : String) (t1 t2 t3 : Int) :
    pair_end (pair_begin (pair_begin [] type_ none t1) type_ none t2)
        type_ none t3 =
      .ok [(type_, [(.auto 0, ⟨t1, some t3⟩), (.auto 1, ⟨t2, none⟩)])] ∧
    pair_difference
        [(type_, [(.auto 0, ⟨t1, some t3⟩), (.auto 1, ⟨t2, none⟩)])]
        type_ none =
      .ok (t3 - t1) := by
  constructor
  · unfold pair_begin pair_end
    simp [dictGet, pairsSet, pairSet, pairGet, bind, Except.bind, pure, Except.pure]
  · unfold pair_difference
    simp [dictGet, pairGet, bind, Except.bind, pure, Except.pure]

/-- The consumption loop over `N` records followed by the sentinel handles
exactly those records in order, acknowledges the sentinel when the queue
supports `task_done`, and exits. -/
theorem monitorLoop_records_then_sentinel {α : Type} (hasTaskDone : Bool)
    (rs : List α) :
    monitorLoop hasTaskDone (rs.map QItem.record ++ [QItem.sentinel]) =
      ⟨rs, hasTaskDone, true⟩ := by
  induction rs with
  | nil => rfl
  | cons r rest ih =>
    simp only [List.map_cons, List.cons_append, monitorLoop, List.append_eq, ih]

/-- C1: a started Listener (terminate flag clear) fed `N` records followed
by one sentinel dispatches exactly those `N` records to its handlers in
enqueue order (none lost, none duplicated), never dispatches the sentinel,
acknowledges the sentinel via `task_done` exactly when the queue supports
it, finishes the loop, and clears its alive flag. -/
theorem monitor_drain_spec {α : Type} (l : LogListener) (hasTaskDone : Bool)
    (rs : List α) (ht : l.terminateEvent = false) :
    monitor l hasTaskDone (rs.map QItem.record ++ [QItem.sentinel]) =
      (⟨rs, hasTaskDone, true⟩, { l with aliveEvent := false }) := by
  unfold monitor
  rw [ht]
  simp only [Bool.false_eq_true, if_false, monitorLoop_records_then_sentinel]

/-- Witness for C1: a concrete idle listener fed three records and the
sentinel on a queue supporting `task_done`. -/
theorem monitor_drain_spec_witness :
    monitor (⟨true, false, true, false, [0]⟩ : LogListener) true
        ([1, 2, 3].map QItem.record ++ [QItem.sentinel]) =
      (⟨[1, 2, 3], true, true⟩, ⟨false, false, true, false, [0]⟩) :=
  monitor_drain_spec ⟨true, false, true, false, [0]⟩ true [1, 2, 3] rfl

/-- The timed dequeue wait on a perpetually empty queue returns `None` with
exactly one warning once the elapsed time reaches the timeout, from any
starting iteration. -/
theorem dequeue_async_timeout_aux {α : Type} (item : α) (emptyAt : Nat → Bool)
    (t : Nat) (elapsed : Nat → Nat) (hempty : ∀ j, emptyAt j = true) :
    ∀ fuel k, 1 ≤ fuel → elapsed (k + fuel) ≥ t →
      dequeue_async emptyAt item (some t) elapsed fuel k = some (none, 1) := by
  intro fuel
  induction fuel with
  | zero => intro k h; omega
  | succ n ih =>
    intro k _ helapsed
    unfold dequeue_async
    rw [hempty k]
    simp only [if_true]
    by_cases hstep : elapsed (k + 1) ≥ t
    · simp [hstep]
    · simp only [hstep, if_false]
      cases n with
      | zero =>
        exact absurd (by simpa using helapsed) hstep
      | succ m =>
        have : elapsed ((k + 1) + (m + 1)) ≥ t := by
          have : k + 1 + (m + 1) = k + (m + 1 + 1) := by omega
          rw [this]; exact helapsed
        exact ih (k + 1) (by omega) this

/-- When the queue's first non-empty observation is the `m`-th check and
the timeout (if any) has not expired at any of the sleeps taken to reach
it, the dequeue wait returns the item with no warning — from any starting
iteration. -/
theorem dequeue_async_item_aux {α : Type} (item : α) (emptyAt : Nat → Bool)
    (timeout : Option Nat) (elapsed : Nat → Nat) :
    ∀ m fuel k, (∀ j, j < m → emptyAt (k + j) = true) →
      emptyAt (k + m) = false →
      (∀ j t', 1 ≤ j → j ≤ m → timeout = some t' → elapsed (k + j) < t') →
      m < fuel →
      dequeue_async emptyAt item timeout elapsed fuel k = some (some item, 0) := by
  intro m
  induction m with
  | zero =>
    intro fuel k _ hm _ hfuel
    cases fuel with
    | zero => omega
    | succ n =>
      unfold dequeue_async
      rw [show k + 0 = k from rfl] at hm
      rw [hm]
      simp
  | succ m' ih =>
    intro fuel k hpre hm hno hfuel
    cases fuel with
    | zero => omega
    | succ n =>
      unfold dequeue_async
      have h0 : emptyAt k = true := by
        have := hpre 0 (by omega)
        simpa using this
      rw [h0]
      simp only [if_true]
      have hrec : dequeue_async emptyAt item timeout elapsed n (k + 1) =
          some (some item, 0) := by
        apply ih n (k + 1)
        · intro j hj
          have := hpre (j + 1) (by omega)
          rw [show k + 1 + j = k + (j + 1) by omega]
          exact this
        · rw [show k + 1 + m' = k + (m' + 1) by omega]
          exact hm
        · intro j t' h1 h2 ht
          have := hno (j + 1) t' (by omega) (by omega) ht
          rw [show k + 1 + j = k + (j + 1) by omega]
          exact this
        · omega
      cases timeout with
      | none => exact hrec
      | some t' =>
        have hlt : elapsed (k + 1) < t' := hno 1 t' (by omega) (by omega) rfl
        show (if elapsed (k + 1) ≥ t' then some (none, 1)
          else dequeue_async emptyAt item (some t') elapsed n (k + 1)) =
            some (some item, 0)
        rw [if_neg (by omega : ¬ elapsed (k + 1) ≥ t')]
        exact hrec

/-- C5: a bounded cooperative dequeue with a finite timeout on a queue that
stays empty for the whole wait returns "no record" (`None`) with exactly
one timeout warning and without raising; when an item becomes available at
some poll — the first check or any later one — before the timeout has
elapsed, it is returned with no warning. -/
theorem dequeue_async_spec {α : Type} (item : α) (emptyAt : Nat → Bool)
    (t : Nat) (elapsed : Nat → Nat) (timeout : Option Nat) (fuel : Nat)
    (hfuel : 1 ≤ fuel) :
    ((∀ j, emptyAt j = true) → elapsed fuel ≥ t →
      dequeue_async emptyAt item (some t) elapsed fuel 0 = some (none, 1)) ∧
    (∀ m, (∀ j, j < m → emptyAt j = true) → emptyAt m = false →
      (∀ j t', 1 ≤ j → j ≤ m → timeout = some t' → elapsed j < t') →
      m < fuel →
      dequeue_async emptyAt item timeout elapsed fuel 0 = some (some item, 0)) := by
  constructor
  · intro hempty helapsed
    have h0 : elapsed (0 + fuel) ≥ t := by simpa using helapsed
    exact dequeue_async_timeout_aux item emptyAt t elapsed hempty fuel 0 hfuel h0
  · intro m hpre hm hno hlt
    apply dequeue_async_item_aux item emptyAt timeout elapsed m fuel 0
    · intro j hj
      simpa using hpre j hj
    · simpa using hm
    · intro j t' h1 h2 ht
      simpa using hno j t' h1 h2 ht
    · exact hlt

/-- Witness for C5: an always-empty queue with unit-time polling and
timeout 3 warns once and yields no record; a queue non-empty at the very
first check yields the item with no warning; a queue whose item arrives at
the third check (after two empty polls), inside a timeout of 5, yields the
item with no warning. -/
theorem dequeue_async_spec_witness :
    dequeue_async (fun _ => true) (37 : Nat) (some 3) (fun n => n) 5 0 =
      some (none, 1) ∧
    dequeue_async (fun _ => false) (37 : Nat) (some 3) (fun n => n) 5 0 =
      some (some 37, 0) ∧
    dequeue_async (fun j => decide (j < 2)) (37 : Nat) (some 5) (fun n => n) 5 0 =
      some (some 37, 0) :=
  ⟨(dequeue_async_spec 37 (fun _ => true) 3 (fun n => n) (some 3) 5
      (by decide)).1 (fun _ => rfl) (by decide),
   (dequeue_async_spec 37 (fun _ => false) 3 (fun n => n) (some 3) 5
      (by decide)).2 0 (by intro j hj; omega) rfl
      (by intro j t' h1 h2 ht; omega) (by decide),
   (dequeue_async_spec 37 (fun j => decide (j < 2)) 5 (fun n => n) (some 5) 5
      (by decide)).2 2 (by intro j hj; simpa using hj) (by decide)
      (by intro j t' h1 h2 ht; injection ht with h; omega) (by decide)⟩

/-- C6: with the alive flag set, `start()` and `start_async_task()` raise
`AlreadyRunning` (`RuntimeError`) and return the listener completely
unchanged — alive flag, terminate flag, stored execution mode and handlers
included; from Idle, `start()` sets the alive flag and raises nothing. -/
theorem start_already_running_spec (l : LogListener) :
    (l.aliveEvent = true →
      l.start = (l, some "LogListener is already running.") ∧
      l.start_async_task = (l, some "LogListener is already running.")) ∧
    (l.aliveEvent = false →
      l.start = ({ l with aliveEvent := true }, none)) := by
  constructor
  · intro halive
    constructor
    · unfold LogListener.start LogListener.is_alive
      rw [halive]
      simp
    · unfold LogListener.start_async_task LogListener.is_alive
      rw [halive]
      simp
  · intro hidle
    unfold LogListener.start LogListener.is_alive
    rw [hidle]
    simp

/-- Witness for C6 at concrete listeners: one already alive (both entry
points fail and leave it unchanged), one idle (`start` sets the alive
flag). -/
theorem start_already_running_spec_witness :
    (⟨true, false, true, false, [7]⟩ : LogListener).start =
      (⟨true, false, true, false, [7]⟩, some "LogListener is already running.") ∧
    (⟨true, false, true, false, [7]⟩ : LogListener).start_async_task =
      (⟨true, false, true, false, [7]⟩, some "LogListener is already running.") ∧
    (⟨false, false, true, false, [7]⟩ : LogListener).start =
      (⟨true, false, true, false, [7]⟩, none) :=
  ⟨((start_already_running_spec ⟨true, false, true, false, [7]⟩).1 rfl).1,
   ((start_already_running_spec ⟨true, false, true, false, [7]⟩).1 rfl).2,
   (start_already_running_spec ⟨false, false, true, false, [7]⟩).2 rfl⟩

/-- C2 counterexample: on an alive listener whose stored mode is the
worker mode (`_is_async = False`), setting `is_async = True` does raise,
but the stored execution mode is changed to `True` by the failed attempt —
the setter assigns `self._is_async = value` before checking `is_alive`. -/
theorem set_is_async_changes_mode_counterexample :
    ((⟨true, false, false, false, []⟩ : LogListener).set_is_async true).2 =
      some "cannot set is_async while LogListener is running." ∧
    ((⟨true, false, false, false, []⟩ : LogListener).set_is_async true).1.isAsyncFlag =
      true ∧
    (⟨true, false, false, false, []⟩ : LogListener).isAsyncFlag = false := by
  decide

/-- C2 as amended: while the listener is alive, setting the execution mode
raises `InvalidStateTransition` (`ValueError`), but the stored mode has
already been overwritten with the requested value when the error is
raised; while Idle, the setting succeeds — in every case the resulting
stored mode is the requested value and no other field changes. -/
theorem set_is_async_spec (l : LogListener) (v : Bool) :
    (l.aliveEvent = true →
      (l.set_is_async v).2 =
        some "cannot set is_async while LogListener is running.") ∧
    (l.aliveEvent = false → (l.set_is_async v).2 = none) ∧
    (l.set_is_async v).1 = { l with isAsyncFlag := v } := by
  refine ⟨?_, ?_, ?_⟩
  · intro halive
    unfold LogListener.set_is_async LogListener.is_alive
    simp [halive]
  · intro hidle
    unfold LogListener.set_is_async LogListener.is_alive
    simp [hidle]
  · unfold LogListener.set_is_async LogListener.is_alive
    by_cases h : l.aliveEvent <;> simp [h]

/-- Witness for the amended C2 at concrete listeners: an alive listener
(error raised, mode overwritten) and an idle listener (no error, mode
stored). -/
theorem set_is_async_spec_witness :
    ((⟨true, true, false, true, [4]⟩ : LogListener).set_is_async true).2 =
      some "cannot set is_async while LogListener is running." ∧
    ((⟨false, false, false, false, []⟩ : LogListener).set_is_async true).2 = none ∧
    ((⟨false, false, false, false, []⟩ : LogListener).set_is_async true).1 =
      ⟨false, false, true, false, []⟩ :=
  ⟨(set_is_async_spec ⟨true, true, false, true, [4]⟩ true).1 rfl,
   (set_is_async_spec ⟨false, false, false, false, []⟩ true).2.1 rfl,
   (set_is_async_spec ⟨false, false, false, false, []⟩ true).2.2⟩

/-- Lookup misses on a dictionary not containing the key. -/
theorem objGet_eq_none_of_not_mem (d : ObjDict) (k : String)
    (h : k ∉ d.map Prod.fst) : objGet d k = none := by
  induction d with
  | nil => rfl
  | cons kv rest ih =>
    obtain ⟨k1, v1⟩ := kv
    simp only [List.map_cons, List.mem_cons, not_or] at h
    simp only [objGet, if_neg (fun he : k1 = k => h.1 he.symm)]
    exact ih h.2

/-- Assignment then lookup at the same key yields the assigned value. -/
theorem objGet_objSet_self (d : ObjDict) (k : String) (v : FieldVal) :
    objGet (objSet d k v) k = some v := by
  induction d with
  | nil => simp [objSet, objGet]
  | cons kv rest ih =>
    obtain ⟨k1, v1⟩ := kv
    by_cases h : k1 = k
    · simp [objSet, objGet, h]
    · simp only [objSet, h, if_false, objGet]
      exact ih

/-- Assignment leaves lookups at other keys unchanged. -/
theorem objGet_objSet_ne (d : ObjDict) (k k' : String) (v : FieldVal)
    (h : k' ≠ k) : objGet (objSet d k v) k' = objGet d k' := by
  induction d with
  | nil => simp [objSet, objGet, Ne.symm h]
  | cons kv rest ih =>
    obtain ⟨k1, v1⟩ := kv
    by_cases hk : k1 = k
    · simp [objSet, objGet, hk, Ne.symm h]
    · by_cases hk' : k1 = k'
      · simp [objSet, objGet, hk, hk', h]
      · simp only [objSet, hk, if_false, objGet, hk']
        exact ih

/-- Popping a key leaves lookups at other keys unchanged. -/
theorem objGet_objPop_ne (d : ObjDict) (k k' : String) (h : k' ≠ k) :
    objGet (objPop d k) k' = objGet d k' := by
  induction d with
  | nil => rfl
  | cons kv rest ih =>
    obtain ⟨k1, v1⟩ := kv
    by_cases hk : k1 = k
    · have hk1 : k1 ≠ k' := by rw [hk]; exact Ne.symm h
      simp [objPop, objGet, hk, hk1, Ne.symm h]
    · by_cases hk' : k1 = k'
      · simp [objPop, objGet, hk, hk', h]
      · simp only [objPop, hk, if_false, objGet, hk']
        exact ih

/-- On a dictionary with no duplicate keys (every Python `__dict__`),
popping a key removes it entirely. -/
theorem objGet_objPop_self (d : ObjDict) (k : String)
    (hnodup : (d.map Prod.fst).Nodup) : objGet (objPop d k) k = none := by
  induction d with
  | nil => rfl
  | cons kv rest ih =>
    obtain ⟨k1, v1⟩ := kv
    simp only [List.map_cons, List.nodup_cons] at hnodup
    by_cases hk : k1 = k
    · simp only [objPop, hk, if_true]
      exact objGet_eq_none_of_not_mem rest k (hk ▸ hnodup.1)
    · simp only [objPop, hk, if_false, objGet]
      exact ih hnodup.2

/-- C7: for a handler `__dict__` with no duplicate attribute names,
the captured snapshot never contains the `lock` entry; restoring the
snapshot reproduces every other attribute (threshold, formatter, target
path, ...) unchanged and installs a freshly created lock.  For a file
handler whose `stream` attribute is an open stream, the snapshot's
`stream` entry is the boolean flag `True` and restoring installs a freshly
reopened stream while every other attribute, the reopening target
included, is reproduced unchanged. -/
theorem handler_pickle_round_trip (d : ObjDict) (freshLock freshStream : Nat)
    (hnodup : (d.map Prod.fst).Nodup) :
    objGet (PickableHandler.getstate d) "lock" = none ∧
    (∀ k, k ≠ "lock" →
      objGet (PickableHandler.setstate (PickableHandler.getstate d) freshLock) k =
        objGet d k) ∧
    objGet (PickableHandler.setstate (PickableHandler.getstate d) freshLock)
        "lock" = some (.lockV freshLock) ∧
    (∀ sid, objGet d "stream" = some (.streamV sid) →
      objGet (FileHandler.getstate d).1 "stream" = some .boolTrue ∧
      objGet (FileHandler.setstate (FileHandler.getstate d).1 freshLock freshStream)
          "stream" = some (.streamV freshStream) ∧
      (∀ k, k ≠ "lock" → k ≠ "stream" →
        objGet (FileHandler.setstate (FileHandler.getstate d).1 freshLock freshStream)
            k = objGet d k)) := by
  refine ⟨?_, ?_, ?_, ?_⟩
  · exact objGet_objPop_self d "lock" hnodup
  · intro k hk
    unfold PickableHandler.setstate createLock PickableHandler.getstate
    rw [objGet_objSet_ne _ _ _ _ hk]
    exact objGet_objPop_ne d "lock" k hk
  · unfold PickableHandler.setstate createLock
    exact objGet_objSet_self _ "lock" _
  · intro sid hstream
    have hopen : ((objGet d "stream").getD .noneV).truthy = true := by
      rw [hstream]; rfl
    have hsnap : (FileHandler.getstate d).1 =
        objSet (PickableHandler.getstate d) "stream" .boolTrue := by
      unfold FileHandler.getstate
      rw [hopen]
      simp
    have hsnapstream : objGet (FileHandler.getstate d).1 "stream" =
        some .boolTrue := by
      rw [hsnap]
      exact objGet_objSet_self _ "stream" _
    refine ⟨hsnapstream, ?_, ?_⟩
    · unfold FileHandler.setstate
      rw [hsnapstream]
      simp only [Option.getD_some, FieldVal.truthy, if_true]
      exact objGet_objSet_self _ "stream" _
    · intro k hklock hkstream
      unfold FileHandler.setstate
      rw [hsnapstream]
      simp only [Option.getD_some, FieldVal.truthy, if_true]
      rw [objGet_objSet_ne _ _ _ _ hkstream]
      unfold PickableHandler.setstate createLock
      rw [objGet_objSet_ne _ _ _ _ hklock, hsnap,
        objGet_objSet_ne _ _ _ _ hkstream]
      unfold PickableHandler.getstate
      exact objGet_objPop_ne d "lock" k hklock

/-- A concrete file-handler `__dict__`: threshold `INFO`, a formatter, a
live lock, the file target, and an open stream. -/
def exampleHandlerDict : ObjDict :=
  [("level", .nat INFO), ("formatter", .str "precise"),
   ("lock", .lockV 5), ("baseFilename", .str "build.log"),
   ("mode", .str "a"), ("stream", .streamV 7)]

/-- Witness for C7 at `exampleHandlerDict`: the snapshot drops the lock,
the restored handler keeps the threshold and formatter and gets the fresh
lock, and the open stream is flagged and reopened with the target path
preserved. -/
theorem handler_pickle_round_trip_witness :
    objGet (PickableHandler.getstate exampleHandlerDict) "lock" = none ∧
    objGet (PickableHandler.setstate (PickableHandler.getstate exampleHandlerDict) 9)
        "level" = objGet exampleHandlerDict "level" ∧
    objGet (PickableHandler.setstate (PickableHandler.getstate exampleHandlerDict) 9)
        "formatter" = objGet exampleHandlerDict "formatter" ∧
    objGet (PickableHandler.setstate (PickableHandler.getstate exampleHandlerDict) 9)
        "lock" = some (.lockV 9) ∧
    objGet (FileHandler.getstate exampleHandlerDict).1 "stream" = some .boolTrue ∧
    objGet (FileHandler.setstate (FileHandler.getstate exampleHandlerDict).1 9 11)
        "stream" = some (.streamV 11) ∧
    objGet (FileHandler.setstate (FileHandler.getstate exampleHandlerDict).1 9 11)
        "baseFilename" = objGet exampleHandlerDict "baseFilename" :=
  have h := handler_pickle_round_trip exampleHandlerDict 9 11 (by decide)
  have hs := h.2.2.2 7 rfl
  ⟨h.1, h.2.1 "level" (by decide), h.2.1 "formatter" (by decide), h.2.2.1,
   hs.1, hs.2.1, hs.2.2 "baseFilename" (by decide) (by decide)⟩

/-- C8 counterexample: starting from the pristine state (nothing saved,
not capturing, prior function `0` installed), enabling then disabling then
enabling again leaves the state exactly as the disable left it — the
second enable is a complete no-op because `_warnings_showwarning` was
never cleared, so capture is NOT re-established ("enabling works again"
fails). -/
theorem capture_warnings_reenable_counterexample :
    capture_warnings
        (capture_warnings (capture_warnings ⟨none, false, 0⟩ true true 1)
          false false 2)
        true true 3 =
      capture_warnings (capture_warnings ⟨none, false, 0⟩ true true 1)
        false false 2 ∧
    (capture_warnings
        (capture_warnings (capture_warnings ⟨none, false, 0⟩ true true 1)
          false false 2)
        true true 3).capturing = false ∧
    (capture_warnings (capture_warnings ⟨none, false, 0⟩ true true 1)
        false false 2).saved = some 0 := by
  decide

/-- C8 as amended: enabling while no prior function is saved saves the
prior warning-emission function, installs the replacement when requested
and sets the capturing flag; every enable call while a prior function is
already saved — whether still capturing or after a disable — is a complete
no-op, so the saved prior function is recorded exactly once per process.
Disabling with a saved function restores it as the emission function and
clears the capturing flag, but retains the saved prior function, so a
subsequent enable does not re-establish capture. -/
theorem capture_warnings_spec (s : WarnState) (init : Bool) (repl : Nat) :
    (s.saved = none →
      capture_warnings s true init repl =
        ⟨some s.showwarning, true,
          if init then repl else s.showwarning⟩) ∧
    (∀ f, s.saved = some f → capture_warnings s true init repl = s) ∧
    (∀ f, s.saved = some f →
      capture_warnings s false init repl =
        { s with showwarning := f, capturing := false }) := by
  refine ⟨?_, ?_, ?_⟩
  · intro hnone
    unfold capture_warnings
    rw [hnone]
    by_cases hi : init <;> simp [hi]
  · intro f hsome
    unfold capture_warnings
    rw [hsome]
    simp
  · intro f hsome
    unfold capture_warnings
    rw [hsome]
    simp

/-- Witness for the amended C8 at concrete states: a first enable from the
pristine state, a redundant enable while saved, and a disable. -/
theorem capture_warnings_spec_witness :
    capture_warnings ⟨none, false, 0⟩ true true 1 = ⟨some 0, true, 1⟩ ∧
    capture_warnings ⟨some 0, true, 1⟩ true true 3 = ⟨some 0, true, 1⟩ ∧
    capture_warnings ⟨some 0, true, 1⟩ false false 2 = ⟨some 0, false, 0⟩ :=
  ⟨(capture_warnings_spec ⟨none, false, 0⟩ true 1).1 rfl,
   (capture_warnings_spec ⟨some 0, true, 1⟩ true 3).2.1 0 rfl,
   (capture_warnings_spec ⟨some 0, true, 1⟩ false 2).2.2 0 rfl⟩

end AdvancedLogging
